import Mathlib

/-!
Verification of the tabular-report rendering engine in
`report_formatter_new.py` (class `ReportFormatter`), shallowly embedded in
Lean 4.  Pandas dataframes become column-major lists of typed cells,
reportlab flowables become a `Block` inductive, and `generate_report`
becomes a pure function from the formatter's instance state, the
dataframe, the explicit arguments and an injected clock string to a
`Document` (the ordered flowable list plus page geometry).
-/

/-- A dataframe cell: a number, a string, or a missing value (`None`/NaN). -/
inductive Cell where
  | num (q : ℚ)
  | str (s : String)
  | null
deriving DecidableEq

/-- A named dataframe column with its cells (top to bottom). -/
structure Column where
  name : String
  cells : List Cell
deriving DecidableEq

/-- A pandas dataframe, column-major: ordered columns plus the row count
(`len(df)`); well-formed frames have every column of length `nRows`. -/
structure DataFrame where
  cols : List Column
  nRows : ℕ
deriving DecidableEq

def Cell.isNum : Cell → Bool
  | .num _ => true
  | _ => false

def Cell.isNumOrNull : Cell → Bool
  | .num _ => true
  | .null => true
  | _ => false

def Cell.toNum : Cell → Option ℚ
  | .num q => some q
  | _ => none

/-- Pandas dtype inference for a column holding Python values with `None`
as the missing value: the column gets a numeric dtype (and is selected by
`df.select_dtypes(include=[number])`, line 336) iff it holds at least one
number and nothing non-null that is not a number; a column with any
string cell, or with only missing values, gets dtype `object`. -/
def Column.isNumericDtype (c : Column) : Bool :=
  c.cells.any Cell.isNum && c.cells.all Cell.isNumOrNull

/-- `df.select_dtypes(include=[number]).columns` (line 336). -/
def numericCols (df : DataFrame) : List Column :=
  df.cols.filter Column.isNumericDtype

/-- `df[col].sum()` (line 339): sums the numeric cells, skipping missing
values. -/
def colSum (c : Column) : ℚ :=
  (c.cells.filterMap Cell.toNum).sum

/-- `df[col].mean()` (line 344): mean over the numeric cells, skipping
missing values (well-defined on numeric-dtype columns, which hold at
least one number). -/
def colMean (c : Column) : ℚ :=
  colSum c / ((c.cells.filterMap Cell.toNum).length : ℚ)

/-- Fuel-driven worker for `chunksOf`; structural on the fuel so the
kernel can evaluate it. -/
def chunksOfAux (k : ℕ) : ℕ → List α → List (List α)
  | _, [] => []
  | 0, xs => [xs]
  | fuel + 1, x :: xs => ((x :: xs).take (k + 1)) :: chunksOfAux k fuel ((x :: xs).drop (k + 1))

/-- Splits a list into consecutive chunks of `k + 1` elements (the last
chunk may be shorter). -/
def chunksOf (k : ℕ) (l : List α) : List (List α) :=
  chunksOfAux k l.length l

/-- Groups a reversed digit list in threes, inserting commas. -/
def groupDigits : List Char → List Char
  | a :: b :: c :: d :: rest => a :: b :: c :: ',' :: groupDigits (d :: rest)
  | l => l

/-- Python `f"{n:,}"` on a natural number: decimal digits grouped in
threes from the right, separated by commas. -/
def fmtThousands (n : ℕ) : String :=
  String.mk ((groupDigits (Nat.toDigits 10 n).reverse).reverse)

/-- Rounding to the nearest integer, ties to even (Python float
formatting). -/
def roundHalfEven (q : ℚ) : ℤ :=
  if q - ⌊q⌋ < 1/2 then ⌊q⌋
  else if 1/2 < q - ⌊q⌋ then ⌊q⌋ + 1
  else if 2 ∣ ⌊q⌋ then ⌊q⌋ else ⌊q⌋ + 1

/-- Python `f"{x:,.2f}"`: two decimal places, integer part grouped with
thousands separators. -/
def fmtFixed2 (q : ℚ) : String :=
  let n := roundHalfEven (q * 100)
  let a := n.natAbs
  (if n < 0 then "-" else "")
    ++ fmtThousands (a / 100) ++ "."
    ++ (if a % 100 < 10 then "0" else "") ++ toString (a % 100)

/-- `ReportFormatter._resize_image` geometry (lines 36-44): aspect ratio
`r = width / height`; if `r > max_width / max_height` the width binds,
otherwise the height binds.  Returns `(new_width, new_height)` as passed
to `Image(..., width=new_width, height=new_height)` (line 54). -/
def resizeDims (w h maxW maxH : ℚ) : ℚ × ℚ :=
  let r := w / h
  if r > maxW / maxH then (maxW, maxW / r) else (maxH * r, maxH)

/-- The fields of a reportlab `ParagraphStyle` that the formatter sets. -/
structure ParagraphStyle where
  name : String
  fontName : String := "Helvetica"
  fontSize : ℚ := 10
  textColor : String := "black"
  alignment : ℕ := 0
  spaceAfter : ℚ := 0
deriving DecidableEq

/-- The table style commands applied by the formatter (lines 313-327):
header/body backgrounds, text colors, fonts and sizes, grid, row height,
vertical alignment. -/
structure TableStyleSpec where
  headerBackground : String
  headerTextColor : String
  align : String
  headerFont : String
  headerFontSize : ℚ
  bottomPadding : ℚ
  bodyBackground : String
  bodyTextColor : String
  bodyFont : String
  bodyFontSize : ℚ
  gridColor : String
  rowHeight : ℚ
  valign : String
deriving DecidableEq

/-- `default_table_style` (lines 313-327). -/
def defaultTableStyle : TableStyleSpec :=
  { headerBackground := "#2d5d7b", headerTextColor := "white", align := "LEFT"
  , headerFont := "Helvetica-Bold", headerFontSize := 10, bottomPadding := 12
  , bodyBackground := "#f5f5f5", bodyTextColor := "black", bodyFont := "Helvetica"
  , bodyFontSize := 8, gridColor := "#808080", rowHeight := 20, valign := "MIDDLE" }

/-- The default title style built when `self.title_style` is unset
(lines 291-298): 24pt, centered (`TA_CENTER = 1`), 30pt space after. -/
def defaultTitleStyle : ParagraphStyle :=
  { name := "CustomTitle", fontSize := 24, spaceAfter := 30, alignment := 1 }

/-- The timestamp style (lines 305-307): `Normal` with 10pt gray text. -/
def timestampStyle : ParagraphStyle :=
  { name := "Normal", fontSize := 10, textColor := "gray" }

/-- The footer style (lines 364-370): 8pt gray, centered. -/
def footerStyle : ParagraphStyle :=
  { name := "Footer", fontSize := 8, textColor := "gray", alignment := 1 }

/-- A reportlab flowable as appended to `elements` by `generate_report`:
`Image`, `Paragraph`, `Table` (with its data rows and style) or `Spacer`. -/
inductive Block where
  | image (width height : ℚ)
  | paragraph (text : String) (style : ParagraphStyle)
  | table (data : List (List Cell)) (style : TableStyleSpec)
  | spacer (width height : ℚ)
deriving DecidableEq

/-- One point per unit; `inch = 72` points. -/
def inchPts : ℚ := 72

/-- reportlab `A4` in points (210mm x 297mm at 72 points per inch). -/
def pagesizeA4 : ℚ × ℚ := (75600 / 127, 106920 / 127)

/-- reportlab `letter` in points. -/
def pagesizeLetter : ℚ × ℚ := (612, 792)

/-- reportlab `landscape(pagesize)`: returns the size with the larger
dimension first. -/
def landscapeOf (p : ℚ × ℚ) : ℚ × ℚ :=
  if p.1 < p.2 then (p.2, p.1) else p

/-- The mutable instance state of `ReportFormatter` as set up by
`__init__` (lines 16-27) and mutated by the `_show_*` interface methods;
`app.py` line 30 creates one shared module-level instance.  The header
image field holds the dimensions of the `Image` flowable produced by
`_resize_image` (or `none`); `styles` (the global sample stylesheet) and
`custom_styles` are omitted: the render reads them only through the
fixed `timestampStyle`/`footerStyle` constants above. -/
structure ReportFormatter where
  pageSize : ℚ × ℚ := pagesizeA4
  orientation : String := "portrait"
  marginLeft : ℚ := 36
  marginRight : ℚ := 36
  marginTop : ℚ := 36
  marginBottom : ℚ := 36
  headerImage : Option (ℚ × ℚ) := none
  footerText : Option String := none
  titleStyle : Option ParagraphStyle := none
  tableStyle : Option TableStyleSpec := none
  chartSize : ℚ × ℚ := (432, 288)
deriving DecidableEq

/-- Python truthiness of `self.footer_text` (`None` and `""` are falsy). -/
def strTruthy : Option String → Bool
  | none => false
  | some s => s ≠ ""

/-- `self.title_style or created default` (lines 291-298; the created
default equals `defaultTitleStyle`). -/
def resolvedTitleStyle (fmt : ReportFormatter) : ParagraphStyle :=
  fmt.titleStyle.getD defaultTitleStyle

/-- `self.table_style or default_table_style` (lines 349, 358). -/
def resolvedTableStyle (fmt : ReportFormatter) : TableStyleSpec :=
  fmt.tableStyle.getD defaultTableStyle

/-- `ReportFormatter._resize_image` (lines 29-57): decoding happens
inside a `try` block, so an undecodable image (modelled as `none`) makes
the method return `None` instead of raising; a decoded image of
dimensions `(w, h)` yields an `Image` flowable sized by `resizeDims`. -/
def resize_image (decoded : Option (ℚ × ℚ)) (maxW maxH : ℚ) : Option (ℚ × ℚ) :=
  match decoded with
  | none => none
  | some wh => some (resizeDims wh.1 wh.2 maxW maxH)

/-- The summary entries appended to `summary_data` after its header row
(lines 333-345): the row count under `include_row_count`, then one total
per numeric column under `include_totals`, then one average per numeric
column under `include_averages`. -/
def summaryEntries (df : DataFrame) (rc tot avg : Bool) : List (String × String) :=
  (if rc then [("Total Rows", fmtThousands df.nRows)] else [])
    ++ (if tot then (numericCols df).map
          (fun c => ("Total " ++ c.name, fmtFixed2 (colSum c))) else [])
    ++ (if avg then (numericCols df).map
          (fun c => ("Average " ++ c.name, fmtFixed2 (colMean c))) else [])

/-- `summary_data` (lines 331-345): the `["Metric", "Value"]` header row
followed by one row per summary entry. -/
def summary_data (df : DataFrame) (rc tot avg : Bool) : List (List Cell) :=
  [Cell.str "Metric", Cell.str "Value"]
    :: (summaryEntries df rc tot avg).map (fun e => [Cell.str e.1, Cell.str e.2])

/-- `df.values.tolist()` (line 355): the dataset rows, each row listing
the cells of every dataset column in column order. -/
def dfRows (df : DataFrame) : List (List Cell) :=
  (List.range df.nRows).map (fun i => df.cols.map (fun c => c.cells.getD i Cell.null))

/-- `data` for the main table (lines 354-355): the column names as the
header row, then every dataset row.  `generate_report` takes no
selected-columns parameter: the table always holds all columns and rows. -/
def mainTableData (df : DataFrame) : List (List Cell) :=
  (df.cols.map (fun c => Cell.str c.name)) :: dfRows df

/-- The `elements` list built by `generate_report` (lines 282-371),
mirroring the appends in source order: header image and spacer when
present, title, timestamp paragraph and spacer, the summary table and
spacer when any summary flag is set and `summary_data` has a row beyond
its header, the main data table, and finally a spacer and the footer
paragraph when `self.footer_text` is truthy. -/
def generateElements (fmt : ReportFormatter) (df : DataFrame)
    (rc tot avg : Bool) (title now : String) : List Block :=
  let elements : List Block := match fmt.headerImage with
    | some wh => [Block.image wh.1 wh.2, Block.spacer 1 20]
    | none => []
  let elements := elements ++ [Block.paragraph title (resolvedTitleStyle fmt)]
  let elements := elements
    ++ [Block.paragraph ("Generated on: " ++ now) timestampStyle, Block.spacer 1 20]
  let elements :=
    if rc || tot || avg then
      (if 1 < (summary_data df rc tot avg).length then
        elements ++ [Block.table (summary_data df rc tot avg) (resolvedTableStyle fmt),
          Block.spacer 1 20]
      else elements)
    else elements
  let elements := elements ++ [Block.table (mainTableData df) (resolvedTableStyle fmt)]
  let elements :=
    if strTruthy fmt.footerText then
      elements ++ [Block.spacer 1 20,
        Block.paragraph (fmt.footerText.getD "") footerStyle]
    else elements
  elements

/-- The document handed to `doc.build` (lines 273-280, 374): the page
size after the landscape swap, the four margins, and the ordered
flowables.  The external `SimpleDocTemplate` encoder is a deterministic
black box, so identical `Document`s yield identical output bytes. -/
structure Document where
  pagesize : ℚ × ℚ
  leftMargin : ℚ
  rightMargin : ℚ
  topMargin : ℚ
  bottomMargin : ℚ
  elements : List Block
deriving DecidableEq

/-- `ReportFormatter.generate_report` (lines 264-376) as a function of
the instance state, the dataframe, the explicit arguments, and the
clock value read by `datetime.now()` (line 308). -/
def generate_report (self : ReportFormatter) (df : DataFrame)
    (rc tot avg : Bool) (title now : String) : Document :=
  { pagesize := if self.orientation = "landscape" then landscapeOf self.pageSize else self.pageSize
  , leftMargin := self.marginLeft
  , rightMargin := self.marginRight
  , topMargin := self.marginTop
  , bottomMargin := self.marginBottom
  , elements := generateElements self df rc tot avg title now }

/-- The spec's main-table contract for comparison with the code's
`mainTableData`: header row = `selectedColumns`, body rows = dataset
rows projected onto `selectedColumns` in dataset row order. -/
def specMainTableData (df : DataFrame) (selected : List String) : List (List Cell) :=
  (selected.map Cell.str)
    :: (dfRows df).map (fun row =>
        selected.map (fun n =>
          match (df.cols.zip row).find? (fun p => p.1.name = n) with
          | some p => p.2
          | none => Cell.null))

/-- The spec's numeric-column predicate for comparison with the code's
`Column.isNumericDtype`: a column is numeric iff every non-null cell in
it parses as a number (string cells checked against an unsigned-decimal
grammar, enough for the separating example). -/
def specNumericColumn (c : Column) : Bool :=
  c.cells.all (fun cl =>
    match cl with
    | .num _ => true
    | .null => true
    | .str s => !s.data.isEmpty && s.data.all Char.isDigit)

/-- Modelled from the spec: the `PageLayoutEngine` of section 4.5 has no
code under `src/` (pagination is delegated to the external reportlab
renderer), so table pagination is modelled from the spec's words: a
fixed row height per row, a page break once the cumulative height would
exceed the remaining drawable height, the header row re-emitted at the
top of each new page, and body rows continuing where they stopped. -/
def layoutPages (hdr : List Cell) (body : List (List Cell))
    (rowHeight drawable : ℚ) : List (List (List Cell)) :=
  let capacity : ℕ := (⌊drawable / rowHeight⌋).toNat
  (chunksOf (capacity - 1 - 1) body).map (fun chunk => hdr :: chunk)

/-! Concrete fixtures used by witnesses and counterexamples. -/

/-- A two-column, one-row dataframe: numeric column `a`, string column `b`. -/
def dfAB : DataFrame := ⟨[⟨"a", [Cell.num 1]⟩, ⟨"b", [Cell.str "x"]⟩], 1⟩

/-- A one-column, one-row numeric dataframe. -/
def dfA : DataFrame := ⟨[⟨"a", [Cell.num 1]⟩], 1⟩

/-- A dataframe whose single column holds the numeric strings "1", "2". -/
def dfStr12 : DataFrame := ⟨[⟨"a", [Cell.str "1", Cell.str "2"]⟩], 2⟩

/-- A 100-row dataframe with three numeric columns. -/
def df100 : DataFrame :=
  ⟨[⟨"x", List.replicate 100 (Cell.num 1)⟩,
    ⟨"y", List.replicate 100 (Cell.num 2)⟩,
    ⟨"z", List.replicate 100 (Cell.num 3)⟩], 100⟩

/-- A numeric column holding one number and one missing value. -/
def colN : Column := ⟨"n", [Cell.num 1, Cell.null]⟩

/-- The dataframe holding just `colN`. -/
def dfN : DataFrame := ⟨[colN], 2⟩

/-- A freshly constructed formatter (all `__init__` defaults). -/
def fmt0 : ReportFormatter := {}

/-- A formatter configured for letter pages, nothing else set. -/
def fmtLetter : ReportFormatter := { pageSize := pagesizeLetter }

/-- As `fmtLetter` but with the interface's default footer text set. -/
def fmtFooter : ReportFormatter :=
  { pageSize := pagesizeLetter, footerText := some "Generated by Tableau Data Reporter" }

/-- As `fmtLetter` with the default chart size. -/
def fmtChartA : ReportFormatter := { pageSize := pagesizeLetter, chartSize := (432, 288) }

/-- As `fmtChartA` but with a different chart size. -/
def fmtChartB : ReportFormatter := { pageSize := pagesizeLetter, chartSize := (720, 720) }

/-- Table blocks in a flowable list (for counting emitted tables). -/
def countTables (bs : List Block) : ℕ :=
  (bs.filter (fun b => match b with | .table _ _ => true | _ => false)).length

/-- Image flowables, for stating that a render omits the header image. -/
def Block.isImage : Block → Bool
  | .image _ _ => true
  | _ => false

/-! Helper lemmas. -/

theorem chunksOfAux_join (k : ℕ) :
    ∀ (fuel : ℕ) (l : List α), l.length ≤ fuel → (chunksOfAux k fuel l).join = l := by
  intro fuel
  induction fuel with
  | zero =>
      intro l hl
      have hnil : l = [] := List.eq_nil_of_length_eq_zero (Nat.le_zero.mp hl)
      subst hnil
      rfl
  | succ n ih =>
      intro l hl
      cases l with
      | nil => rfl
      | cons x xs =>
          have hdrop : ((x :: xs).drop (k + 1)).length ≤ n := by
            simp only [List.length_drop]
            simp only [List.length_cons] at hl ⊢
            omega
          calc (chunksOfAux k (n + 1) (x :: xs)).join
              = (x :: xs).take (k + 1) ++ (chunksOfAux k n ((x :: xs).drop (k + 1))).join := by
                simp [chunksOfAux]
            _ = (x :: xs).take (k + 1) ++ (x :: xs).drop (k + 1) := by
                rw [ih _ hdrop]
            _ = x :: xs := List.take_append_drop _ _

theorem chunksOf_join (k : ℕ) (l : List α) : (chunksOf k l).join = l :=
  chunksOfAux_join k l.length l le_rfl

theorem chunksOf_cons (k : ℕ) (x : α) (xs : List α) :
    chunksOf k (x :: xs)
      = ((x :: xs).take (k + 1)) :: chunksOfAux k xs.length ((x :: xs).drop (k + 1)) := rfl

theorem countTables_append (a b : List Block) :
    countTables (a ++ b) = countTables a + countTables b := by
  simp [countTables, List.filter_append]

/-- C3: for every image with positive dimensions and every positive
bounding box, `_resize_image` compares `r = w / h` with `maxW / maxH`;
when `r` is larger the width binds (`(maxW, maxW / r)`), otherwise the
height binds (`(maxH * r, maxH)`); the result never exceeds either bound
and preserves the aspect ratio exactly. -/
theorem image_fit_spec (w h maxW maxH : ℚ)
    (hw : 0 < w) (hh : 0 < h) (hmw : 0 < maxW) (hmh : 0 < maxH) :
    (w / h > maxW / maxH → resizeDims w h maxW maxH = (maxW, maxW / (w / h)))
  ∧ (¬ w / h > maxW / maxH → resizeDims w h maxW maxH = (maxH * (w / h), maxH))
  ∧ (resizeDims w h maxW maxH).1 ≤ maxW
  ∧ (resizeDims w h maxW maxH).2 ≤ maxH
  ∧ (resizeDims w h maxW maxH).1 / (resizeDims w h maxW maxH).2 = w / h := by
  have hr : 0 < w / h := div_pos hw hh
  by_cases hgt : w / h > maxW / maxH
  · have h1 : resizeDims w h maxW maxH = (maxW, maxW / (w / h)) := by
      simp [resizeDims, hgt]
    have h2 : maxW / (w / h) < maxH := by
      rw [div_lt_iff hr]
      have := (div_lt_iff hmh).mp hgt
      linarith [this]
    refine ⟨fun _ => h1, fun hc => absurd hgt hc, ?_, ?_, ?_⟩
    · rw [h1]
    · rw [h1]; exact le_of_lt h2
    · rw [h1]
      have hx : maxW / (w / h) ≠ 0 := by positivity
      field_simp
      ring
  · have hle : w / h ≤ maxW / maxH := le_of_not_lt hgt
    have h1 : resizeDims w h maxW maxH = (maxH * (w / h), maxH) := by
      simp [resizeDims, hgt]
    have hmwh : maxH * (maxW / maxH) = maxW := by field_simp
    refine ⟨fun hc => absurd hc hgt, fun _ => h1, ?_, ?_, ?_⟩
    · rw [h1]
      calc maxH * (w / h) ≤ maxH * (maxW / maxH) :=
            mul_le_mul_of_nonneg_left hle hmh.le
        _ = maxW := hmwh
    · rw [h1]
    · rw [h1]
      exact mul_div_cancel_left₀ _ hmh.ne'

/-- Witness for C3 at the spec's worked example: an 800x400 image fit
into a 432x144 box is height-bound to 288x144, within both bounds. -/
theorem image_fit_spec_witness :
    resizeDims 800 400 432 144 = (288, 144)
  ∧ (resizeDims 800 400 432 144).1 ≤ 432
  ∧ (resizeDims 800 400 432 144).2 ≤ 144 := by
  have h := image_fit_spec 800 400 432 144
    (by norm_num) (by norm_num) (by norm_num) (by norm_num)
  refine ⟨?_, h.2.2.1, h.2.2.2.1⟩
  have h2 := h.2.1 (by norm_num)
  rw [h2]
  norm_num

/-- C1: the main data table ignores the configured selected columns.
`generate_report` takes no selected-columns parameter (the interface
stores `selected_columns` in the session state and never passes them on),
so on a dataset with columns `a`, `b` and a configuration selecting only
`a`, the emitted table holds both columns and the full row, while the
spec's projection holds only column `a`. -/
theorem main_table_ignores_selected_columns :
    mainTableData dfAB = [[Cell.str "a", Cell.str "b"], [Cell.num 1, Cell.str "x"]]
  ∧ specMainTableData dfAB ["a"] = [[Cell.str "a"], [Cell.num 1]]
  ∧ mainTableData dfAB ≠ specMainTableData dfAB ["a"] := by decide

/-- C9: selecting zero columns does not give a header-only table: the
code ignores the selection entirely, so on a one-column, one-row dataset
the main table still holds the header row plus one body row. -/
theorem zero_selection_full_table :
    mainTableData dfA = [[Cell.str "a"], [Cell.num 1]]
  ∧ (dfRows dfA).length = 1 := by decide

/-- C4: with all three flags set, the computed summary is the
thousands-separated row count first, then one 2-decimal total per
numeric column, then one 2-decimal average per numeric column, both in
dataset column order; the entry count is `1 + 2 * (numeric columns)`
(hence 7 for a dataset with 3 numeric columns, whatever its 100 rows). -/
theorem aggregation_summary_order (df : DataFrame) :
    summaryEntries df true true true
      = ("Total Rows", fmtThousands df.nRows)
        :: (((numericCols df).map (fun c => ("Total " ++ c.name, fmtFixed2 (colSum c))))
            ++ ((numericCols df).map (fun c => ("Average " ++ c.name, fmtFixed2 (colMean c)))))
  ∧ (summaryEntries df true true true).length = 1 + 2 * (numericCols df).length := by
  constructor
  · simp [summaryEntries]
  · simp [summaryEntries]
    ring

/-- Normal form of the flowable list built by `generate_report`: the
builder sequence of lines 282-371 equals one ordered concatenation, with
the code's summary guard (`any(flags)` and `len(summary_data) > 1`)
replaced by non-emptiness of the summary entries. -/
theorem generateElements_canonical (fmt : ReportFormatter) (df : DataFrame)
    (rc tot avg : Bool) (title now : String) :
    generateElements fmt df rc tot avg title now
      = (match fmt.headerImage with
          | some wh => [Block.image wh.1 wh.2, Block.spacer 1 20]
          | none => [])
        ++ [Block.paragraph title (resolvedTitleStyle fmt),
            Block.paragraph ("Generated on: " ++ now) timestampStyle,
            Block.spacer 1 20]
        ++ (if summaryEntries df rc tot avg = [] then []
            else [Block.table (summary_data df rc tot avg) (resolvedTableStyle fmt),
              Block.spacer 1 20])
        ++ [Block.table (mainTableData df) (resolvedTableStyle fmt)]
        ++ (if strTruthy fmt.footerText then
              [Block.spacer 1 20, Block.paragraph (fmt.footerText.getD "") footerStyle]
            else []) := by
  have hflag : (rc || tot || avg) = false → summaryEntries df rc tot avg = [] := by
    cases rc <;> cases tot <;> cases avg <;> simp [summaryEntries]
  have hlen : (summary_data df rc tot avg).length
      = 1 + (summaryEntries df rc tot avg).length := by
    simp [summary_data, Nat.add_comm]
  simp only [generateElements]
  by_cases hfl : (rc || tot || avg) = true
  · by_cases he : summaryEntries df rc tot avg = []
    · have hnl : ¬ 1 < (summary_data df rc tot avg).length := by
        rw [hlen, he]; simp
      by_cases hft : strTruthy fmt.footerText = true <;>
        simp [hfl, hnl, he, hft, List.append_assoc]
    · have hnl : 1 < (summary_data df rc tot avg).length := by
        rw [hlen]
        have := List.length_pos.mpr he
        omega
      by_cases hft : strTruthy fmt.footerText = true <;>
        simp [hfl, hnl, he, hft, List.append_assoc]
  · have he := hflag (Bool.eq_false_iff.mpr hfl)
    have hnl : ¬ 1 < (summary_data df rc tot avg).length := by
      rw [hlen, he]; simp
    by_cases hft : strTruthy fmt.footerText = true <;>
      simp [hfl, hnl, he, hft, List.append_assoc]

/-- C6: the composed flowables appear in exactly the fixed order: image
and spacer when the header image is present, title, timestamp, spacer,
then the summary table (header row `Metric`, `Value`) and a spacer
exactly when the summary is non-empty, then the main data table, then a
spacer and the footer exactly when the footer text is non-empty. -/
theorem compose_block_order (fmt : ReportFormatter) (df : DataFrame)
    (rc tot avg : Bool) (title now : String) :
    generateElements fmt df rc tot avg title now
      = (match fmt.headerImage with
          | some wh => [Block.image wh.1 wh.2, Block.spacer 1 20]
          | none => [])
        ++ [Block.paragraph title (resolvedTitleStyle fmt),
            Block.paragraph ("Generated on: " ++ now) timestampStyle,
            Block.spacer 1 20]
        ++ (if summaryEntries df rc tot avg = [] then []
            else [Block.table (summary_data df rc tot avg) (resolvedTableStyle fmt),
              Block.spacer 1 20])
        ++ [Block.table (mainTableData df) (resolvedTableStyle fmt)]
        ++ (if strTruthy fmt.footerText then
              [Block.spacer 1 20, Block.paragraph (fmt.footerText.getD "") footerStyle]
            else [])
  ∧ (summary_data df rc tot avg).head? = some [Cell.str "Metric", Cell.str "Value"] :=
  ⟨generateElements_canonical fmt df rc tot avg title now, rfl⟩

/-- C10: a header-only summary table is never emitted: the render holds
two tables exactly when the summary entries are non-empty and only the
main table otherwise, and with empty summary entries (for instance
`include_row_count` false and no numeric columns) the flowables equal
those of the all-flags-off render — no summary table and no summary
spacer. -/
theorem summary_block_iff_nonempty (fmt : ReportFormatter) (df : DataFrame)
    (rc tot avg : Bool) (title now : String) :
    countTables (generateElements fmt df rc tot avg title now)
      = (if summaryEntries df rc tot avg = [] then 1 else 2)
  ∧ (summaryEntries df rc tot avg = [] →
      generateElements fmt df rc tot avg title now
        = generateElements fmt df false false false title now) := by
  constructor
  · rw [generateElements_canonical]
    cases hhi : fmt.headerImage <;>
      by_cases he : summaryEntries df rc tot avg = [] <;>
        by_cases hft : strTruthy fmt.footerText = true <;>
          simp [he, hft, countTables, List.filter_append]
  · intro he
    rw [generateElements_canonical, generateElements_canonical]
    have he0 : summaryEntries df false false false = [] := by simp [summaryEntries]
    rw [he, he0]
    simp

/-- Witness for C10: with the row count off and a dataset holding only a
string column, the render equals the all-flags-off render even though
totals and averages were requested. -/
theorem summary_block_iff_nonempty_witness :
    generateElements fmtLetter dfStr12 false true true "Data Report" "2024-01-01 00:00:00"
      = generateElements fmtLetter dfStr12 false false false "Data Report" "2024-01-01 00:00:00" :=
  (summary_block_iff_nonempty fmtLetter dfStr12 false true true
    "Data Report" "2024-01-01 00:00:00").2 (by decide)

/-- C5 counterexample: in a column holding the strings "1" and "2" every
non-null cell parses as a number, yet the dtype-based selection of
`select_dtypes` excludes it, so with all flags set the summary holds only
the row count and no total or average for the column. -/
theorem numeric_strings_excluded :
    specNumericColumn ⟨"a", [Cell.str "1", Cell.str "2"]⟩ = true
  ∧ Column.isNumericDtype ⟨"a", [Cell.str "1", Cell.str "2"]⟩ = false
  ∧ numericCols dfStr12 = []
  ∧ summaryEntries dfStr12 true true true = [("Total Rows", "2")] := by decide

/-- C5 (amended): a column participates in totals and averages exactly
when it holds at least one numeric cell and nothing non-null that is not
a number (pandas numeric dtype); sums and means ignore missing cells;
a column with no numeric cell never participates. -/
theorem column_participation (df : DataFrame) (c : Column) (hc : c ∈ df.cols) :
    (c ∈ numericCols df
      ↔ (c.cells.any Cell.isNum = true ∧ c.cells.all Cell.isNumOrNull = true))
  ∧ colSum ⟨c.name, c.cells ++ [Cell.null]⟩ = colSum c
  ∧ colMean ⟨c.name, c.cells ++ [Cell.null]⟩ = colMean c
  ∧ (c.cells.all (fun x => !x.isNum) = true → c ∉ numericCols df) := by
  refine ⟨?_, ?_, ?_, ?_⟩
  · simp [numericCols, List.mem_filter, hc, Column.isNumericDtype, Bool.and_eq_true]
  · simp [colSum, List.filterMap_append, Cell.toNum]
  · simp [colMean, colSum, List.filterMap_append, Cell.toNum]
  · intro hall hmem
    rw [numericCols, List.mem_filter] at hmem
    have h2 := hmem.2
    simp only [Column.isNumericDtype, Bool.and_eq_true, List.any_eq_true] at h2
    obtain ⟨⟨x, hx, hxnum⟩, -⟩ := h2
    simp only [List.all_eq_true] at hall
    have := hall x hx
    simp [hxnum] at this

/-- Witness for C5 (amended): appending a missing cell to a concrete
numeric column changes neither its sum nor its participation. -/
theorem column_participation_witness :
    colSum ⟨colN.name, colN.cells ++ [Cell.null]⟩ = colSum colN :=
  (column_participation dfN colN (by decide)).2.1

/-- C2 counterexample: two renders with the same dataset, the same
explicit arguments and a fixed clock still differ, because the shared
formatter instance's `footer_text` field — set by a separate interface
call, not passed to `generate_report` — differs between the two
instance states.  A render is therefore not a pure function of its
explicit arguments. -/
theorem render_depends_on_instance_state :
    generate_report fmtFooter dfA false false false "Data Report" "2024-01-01 00:00:00"
      ≠ generate_report fmtLetter dfA false false false "Data Report" "2024-01-01 00:00:00" := by
  decide

/-- C2 (amended): the render is a deterministic function of the
formatter instance state together with the explicit arguments and the
clock: two instances agreeing on every field `generate_report` reads
(page size, orientation, margins, header image, footer text, title and
table styles) produce identical documents — whatever their chart sizes,
which the render never reads. -/
theorem render_determined_by_instance_state (f1 f2 : ReportFormatter) (df : DataFrame)
    (rc tot avg : Bool) (title now : String)
    (hps : f1.pageSize = f2.pageSize) (hor : f1.orientation = f2.orientation)
    (hml : f1.marginLeft = f2.marginLeft) (hmr : f1.marginRight = f2.marginRight)
    (hmt : f1.marginTop = f2.marginTop) (hmb : f1.marginBottom = f2.marginBottom)
    (hhi : f1.headerImage = f2.headerImage) (hft : f1.footerText = f2.footerText)
    (hts : f1.titleStyle = f2.titleStyle) (htb : f1.tableStyle = f2.tableStyle) :
    generate_report f1 df rc tot avg title now
      = generate_report f2 df rc tot avg title now := by
  simp only [generate_report, generateElements, resolvedTitleStyle, resolvedTableStyle,
    hps, hor, hml, hmr, hmt, hmb, hhi, hft, hts, htb]

/-- Witness for C2 (amended): two formatter states differing only in
chart size render the same document. -/
theorem render_determined_witness :
    generate_report fmtChartA dfA false false false "Data Report" "2024-01-01 00:00:00"
      = generate_report fmtChartB dfA false false false "Data Report" "2024-01-01 00:00:00" :=
  render_determined_by_instance_state fmtChartA fmtChartB dfA false false false
    "Data Report" "2024-01-01 00:00:00" rfl rfl rfl rfl rfl rfl rfl rfl rfl rfl

/-- C8: an undecodable header image (the `except` path of
`_resize_image`) makes `_resize_image` return `None`; the render then
carries no image flowable at all, still carries the main data table, and
completes normally on the remaining blocks. -/
theorem image_decode_failure_recovers (fmt : ReportFormatter) (decoded : Option (ℚ × ℚ))
    (maxW maxH : ℚ) (df : DataFrame) (rc tot avg : Bool) (title now : String)
    (hfail : decoded = none) :
    resize_image decoded maxW maxH = none
  ∧ (∀ b ∈ generateElements { fmt with headerImage := resize_image decoded maxW maxH }
        df rc tot avg title now, b.isImage = false)
  ∧ Block.table (mainTableData df) (resolvedTableStyle fmt)
      ∈ generateElements { fmt with headerImage := resize_image decoded maxW maxH }
          df rc tot avg title now := by
  subst hfail
  rw [show resize_image none maxW maxH = none from rfl]
  refine ⟨rfl, ?_, ?_⟩
  · rw [generateElements_canonical]
    by_cases he : summaryEntries df rc tot avg = [] <;>
      by_cases hft : strTruthy fmt.footerText = true <;>
        simp [he, hft, Block.isImage]
  · rw [generateElements_canonical]
    by_cases he : summaryEntries df rc tot avg = [] <;>
      by_cases hft : strTruthy fmt.footerText = true <;>
        simp [he, hft, resolvedTableStyle]

/-- Witness for C8: the undecodable-image path returns `None` for the
default formatter and full-flag render on the one-column dataset. -/
theorem image_decode_failure_witness :
    resize_image none 432 144 = none :=
  (image_decode_failure_recovers fmt0 none 432 144 dfA true true true
    "Data Report" "2024-01-01 00:00:00" rfl).1

/-- C7: pagination of the main table per the spec's layout contract
(modelled from the spec, see `layoutPages`): with 500 body rows, a 20pt
row height and a 700pt drawable height, the first page holds the header
plus `floor(700 / 20) - 1 = 34` body rows, every page begins with the
repeated header row, and the body rows of all pages are exactly the 500
original rows in order. -/
theorem page_layout_spec (hdr : List Cell) (body : List (List Cell))
    (hlen : body.length = 500) :
    (layoutPages hdr body 20 700).head?.map List.length = some 35
  ∧ (∀ p ∈ layoutPages hdr body 20 700, p.head? = some hdr)
  ∧ ((layoutPages hdr body 20 700).map (fun p => p.length - 1)).sum = 500
  ∧ ((layoutPages hdr body 20 700).map List.tail).join = body := by
  have h3520 : (700 : ℚ) / 20 = 35 := by norm_num
  have hfloor : (⌊(700 : ℚ) / 20⌋).toNat - 1 - 1 = 33 := by
    rw [h3520]
    norm_num
    rfl
  have hlay : layoutPages hdr body 20 700
      = (chunksOf 33 body).map (fun c => hdr :: c) := by
    simp only [layoutPages]
    rw [hfloor]
  refine ⟨?_, ?_, ?_, ?_⟩
  · cases body with
    | nil => simp at hlen
    | cons x xs =>
        have hxs : xs.length = 499 := by
          simpa using hlen
        rw [hlay, chunksOf_cons]
        simp [List.length_take, hxs]
  · intro p hp
    rw [hlay] at hp
    simp only [List.mem_map] at hp
    obtain ⟨c, -, rfl⟩ := hp
    rfl
  · rw [hlay, List.map_map]
    have hcomp : ((fun p : List (List Cell) => p.length - 1) ∘ (fun c => hdr :: c))
        = fun c : List (List Cell) => c.length := by
      funext c
      simp
    rw [hcomp]
    calc ((chunksOf 33 body).map List.length).sum
        = (chunksOf 33 body).join.length := (List.length_join _).symm
      _ = body.length := by rw [chunksOf_join]
      _ = 500 := hlen
  · rw [hlay, List.map_map]
    have hcomp : (List.tail ∘ fun c : List (List Cell) => hdr :: c) = id := by
      funext c
      simp
    rw [hcomp, List.map_id]
    exact chunksOf_join 33 body

/-- Witness for C7: on 500 concrete rows the paginated body rows sum to
500. -/
theorem page_layout_spec_witness :
    ((layoutPages [Cell.str "h"] (List.replicate 500 [Cell.num 1]) 20 700).map
        (fun p => p.length - 1)).sum = 500 :=
  (page_layout_spec [Cell.str "h"] (List.replicate 500 [Cell.num 1])
    (by rw [List.length_replicate])).2.2.1
